import Mathlib

/-
Shallow embedding of scripts/validator.py from the skill-schema repository,
together with theorems checking the repository specification against it.

Conventions of the embedding:
* The filesystem and the external libraries (the JSON parser, the PyLD
  expansion engine, the jsonschema validator) are oracles packaged in an
  `Env` value: `readFile` gives, per path, the outcome the JSON parser
  produces for that file; `pathExists` is os.path.exists; the `expand*`
  fields give, per file, the outcome of the corresponding jsonld.expand
  call; `jsValidate` gives the outcome of jsonschema.validate.
* Paths are POSIX strings; os.path.join, dirname, basename, normpath are
  reimplemented on lists of characters so that proofs can evaluate them.
* Python string formatting is reproduced by string concatenation;
  apostrophes inside messages are written with the escape \x27.
* Parsed JSON documents are `Json` trees; numeric leaves are integers
  (no property below depends on number formatting).
-/

namespace Validator

/-! ### Character-list string primitives -/

/-- Python s.startswith(pre), on the character lists of the two strings. -/
def strStartsWith (s pre : String) : Bool := pre.data.isPrefixOf s.data

/-- Python s.endswith(suf), on the character lists of the two strings. -/
def strEndsWith (s suf : String) : Bool := suf.data.isSuffixOf s.data

/-- Helper of `strContains`: does pat occur (as a contiguous run) in s? -/
def charsContain (s pat : List Char) : Bool :=
  match s with
  | [] => pat.isEmpty
  | c :: t => pat.isPrefixOf (c :: t) || charsContain t pat

/-- Python (pat in s), the substring test used by the orchestrator. -/
def strContains (s pat : String) : Bool := charsContain s.data pat.data

/-- Python s[:-n] for n ≤ len(s): drop the last n characters. -/
def strDropRight (s : String) (n : Nat) : String :=
  String.mk (s.data.take (s.data.length - n))

/-- Helper of `pathSplit`: split a character list on the slash character. -/
def splitOnSlashAux (cs : List Char) (cur : List Char) : List (List Char) :=
  match cs with
  | [] => [cur.reverse]
  | c :: rest =>
      if c = '/' then cur.reverse :: splitOnSlashAux rest []
      else splitOnSlashAux rest (c :: cur)

/-- Python p.split("/") (and p.split(os.sep) on POSIX). -/
def pathSplit (p : String) : List String :=
  (splitOnSlashAux p.data []).map (fun l => String.mk l)

/-! ### POSIX path operations (os.path) -/

/-- os.path.isabs on POSIX: the path starts with a slash. -/
def os_path_isabs (p : String) : Bool := strStartsWith p "/"

/-- os.path.join for two arguments on POSIX: an absolute second argument
    discards the first; otherwise the parts are joined with a slash unless
    the first part is empty or already ends in a slash. -/
def os_path_join (a b : String) : String :=
  if strStartsWith b "/" then b
  else if a = "" || strEndsWith a "/" then a ++ b
  else a ++ "/" ++ b

/-- os.path.basename on POSIX: everything after the last slash. -/
def os_path_basename (p : String) : String :=
  String.mk ((p.data.reverse.takeWhile (fun c => c != '/')).reverse)

/-- Python url.split("/")[-1]: identical to the basename on POSIX. -/
def lastComponent (url : String) : String :=
  String.mk ((url.data.reverse.takeWhile (fun c => c != '/')).reverse)

/-- os.path.dirname on POSIX: the part before the last slash, with trailing
    slashes stripped unless the result consists only of slashes. -/
def os_path_dirname (p : String) : String :=
  let cs := p.data
  let tailLen := (cs.reverse.takeWhile (fun c => c != '/')).length
  let head := cs.take (cs.length - tailLen)
  if head.isEmpty || head.all (fun c => c = '/') then String.mk head
  else String.mk ((head.reverse.dropWhile (fun c => c = '/')).reverse)

/-- One step of CPython posixpath.normpath component processing: empty and
    "." components are dropped; ".." pops the accumulator unless the path is
    relative and the accumulator is empty, or the accumulator already ends
    in an unresolved "..". -/
def normpathFold (initialSlashes : Nat) (acc : List String) (comp : String) : List String :=
  if comp = "" || comp = "." then acc
  else if comp != ".." || (initialSlashes == 0 && acc.isEmpty) || (acc.getLast? == some "..") then
    acc ++ [comp]
  else if !acc.isEmpty then acc.dropLast
  else acc

/-- CPython posixpath.normpath: collapse repeated slashes, drop ".", resolve
    ".." textually, preserving one leading slash (or exactly two). -/
def os_path_normpath (p : String) : String :=
  if p = "" then "."
  else
    let initialSlashes : Nat :=
      if strStartsWith p "//" && !(strStartsWith p "///") then 2
      else if strStartsWith p "/" then 1 else 0
    let newComps := (pathSplit p).foldl (normpathFold initialSlashes) []
    let res := String.mk (List.replicate initialSlashes '/') ++ String.intercalate "/" newComps
    if res = "" then "." else res

/-! ### The data model: parsed JSON documents and oracle outcomes -/

/-- A parsed JSON tree, as json.load produces it. Numeric leaves are
    modelled as integers; objects are association lists whose keys are
    unique (json.load returns a dict). -/
inductive Json where
  | null
  | bool (b : Bool)
  | num (n : Int)
  | str (s : String)
  | arr (elts : List Json)
  | obj (fields : List (String × Json))

/-- Python truthiness of a parsed JSON value (the `if not actual_context`
    test at validator.py line 219). -/
def jsonTruthy : Json → Bool
  | .null => false
  | .bool b => b
  | .num n => n != 0
  | .str s => s != ""
  | .arr elts => !elts.isEmpty
  | .obj fields => !fields.isEmpty

/-- Python data.get(key) for a parsed document that is a dict; `none` for a
    missing key. Non-dict documents are handled at the call sites (where
    CPython would raise AttributeError). -/
def jsonGet (j : Json) (key : String) : Option Json :=
  match j with
  | .obj fields => (fields.find? (fun kv => kv.1 == key)).map (fun kv => kv.2)
  | _ => none

/-- Outcome of opening and json.load-ing one file once, as the filesystem oracle
    of the embedding reports it: a parsed document, a JSONDecodeError with
    its position, a missing file, or any other exception. -/
inductive ReadOutcome where
  | ok (doc : Json)
  | parseError (msg : String) (line col : Nat)
  | notFound
  | otherError (msg : String)

/-- Outcome of one jsonschema.validate call (an external collaborator):
    success, an instance validation error carrying the structural path, an
    invalid-schema error, or any other exception. -/
inductive JsValidateOutcome where
  | ok
  | validationError (message : String) (path : List String)
  | schemaError (message : String)
  | otherError (message : String)

/-- The environment a run of validator.py observes: the filesystem plus the
    outcomes of the external library calls. expandUnmapped, expandMismatch
    and expandExpected give, per example file, the outcome of the
    jsonld.expand call made in the corresponding branch of
    check_context_utilization (`none` = expansion succeeded, `some e` = it
    raised with message e; for expandExpected the flag records whether the
    exception was a JsonLdError). -/
structure Env where
  readFile : String → ReadOutcome
  pathExists : String → Bool
  projectRoot : String
  expandUnmapped : String → Option String
  expandMismatch : String → Option String
  expandExpected : String → Option (Bool × String)
  jsValidate : Json → Json → JsValidateOutcome

/-! ### validate_json_syntax (validator.py lines 20-40) -/

/-- Embeds validate_json_syntax: every outcome of the underlying open +
    json.load is caught and converted to a (bool, message) pair; a
    JSONDecodeError yields the located syntax error message. -/
def validate_json_syntax (env : Env) (file_path : String) : Bool × String :=
  match env.readFile file_path with
  | .ok _ => (true, "")
  | .parseError m l c =>
      (false, "Syntax error: " ++ m ++ " (line " ++ toString l ++ ", column " ++ toString c ++ ")")
  | .notFound => (false, "Error: File not found.")
  | .otherError m =>
      (false, "An unexpected error occurred during JSON syntax validation: " ++ m)

/-! ### The context document loaders (validator.py lines 70-93 and 241-256) -/

/-- The legacy remote URL prefix recognized by the loaders. -/
def legacyUrlStart : String :=
  "https://raw.githubusercontent.com/ModelContext/skill-schema/main/contexts/"

/-- Result of one documentLoader call: the local path that was loaded, or
    the raised JsonLdError message. (The loaded document body and the
    file:// documentUrl are determined by the returned path.) -/
inductive LoadResult where
  | loaded (path : String)
  | loadError (msg : String)
deriving DecidableEq

/-- Embeds local_document_loader (validator.py lines 70-93), the nested
    closure of validate_jsonld_structure; scriptDir is os.path.dirname of
    the script file, file_path the document being processed. -/
def local_document_loader (pathExists : String → Bool) (scriptDir file_path url : String) :
    LoadResult :=
  let local_path :=
    if strStartsWith url legacyUrlStart then
      os_path_join (os_path_join (os_path_join scriptDir "..") "contexts") (lastComponent url)
    else if pathExists url then url
    else if pathExists (os_path_join (os_path_dirname file_path) url) then
      os_path_join (os_path_dirname file_path) url
    else
      os_path_join (os_path_join (os_path_join scriptDir "..") "contexts") url
  if pathExists local_path then .loaded local_path
  else .loadError ("Context URL " ++ url ++ " could not be resolved to a local file.")

/-- Embeds local_document_loader_for_check (validator.py lines 241-256),
    the nested closure inside check_context_utilization; projectRoot is
    PROJECT_ROOT_FOR_CONTEXTS. -/
def local_document_loader_for_check (pathExists : String → Bool)
    (projectRoot example_file_path url : String) : LoadResult :=
  let local_path :=
    if strStartsWith url legacyUrlStart then
      os_path_join (os_path_join projectRoot "contexts") (lastComponent url)
    else if pathExists url then url
    else if pathExists (os_path_join (os_path_dirname example_file_path) url) then
      os_path_join (os_path_dirname example_file_path) url
    else
      os_path_join (os_path_join projectRoot "contexts") url
  if pathExists local_path then .loaded local_path
  else .loadError ("Context URL " ++ url ++ " could not be resolved to a local file.")

/-! ### map_example_to_schema (validator.py lines 104-139) -/

/-- Embeds map_example_to_schema: strip a recognized example suffix from
    the base name, reject an empty stem, derive
    base_dir/schemas/stem.schema.json, and return it only if it exists. -/
def map_example_to_schema (pathExists : String → Bool)
    (example_file_path base_dir : String) : Option String :=
  let file_name := os_path_basename example_file_path
  let schema_base_name : Option String :=
    if strEndsWith file_name "_example.json" then some (strDropRight file_name 13)
    else if strEndsWith file_name "_example.jsonld" then some (strDropRight file_name 15)
    else none
  match schema_base_name with
  | none => none
  | some sbn =>
      if sbn = "" then none
      else
        let schema_path := os_path_join (os_path_join base_dir "schemas") (sbn ++ ".schema.json")
        if pathExists schema_path then some schema_path else none

/-! ### validate_with_schema (validator.py lines 141-184) -/

/-- Embeds validate_with_schema: syntax-check the example first, then load
    example and schema (schema load failures reported distinctly), then run
    jsonschema.validate, translating each failure kind to its message. -/
def validate_with_schema (env : Env) (example_file_path schema_file_path : String) :
    Bool × String :=
  let synCheck := validate_json_syntax env example_file_path
  if !synCheck.1 then (false, synCheck.2)
  else
    match env.readFile example_file_path with
    | .ok example_data =>
        match env.readFile schema_file_path with
        | .ok schema_data =>
            match env.jsValidate example_data schema_data with
            | .ok => (true, "")
            | .validationError m path =>
                (false, "Schema validation error: " ++ m ++ " (at path: \x27" ++
                  String.intercalate "->" path ++ "\x27)")
            | .schemaError m =>
                (false, "Invalid schema definition in " ++ schema_file_path ++ ": " ++ m)
            | .otherError m =>
                (false, "An unexpected error occurred during schema validation: " ++ m)
        | .notFound => (false, "Schema file not found: " ++ schema_file_path)
        | .parseError m l c =>
            (false, "Syntax error in schema file " ++ schema_file_path ++ ": " ++ m ++
              " (line " ++ toString l ++ ", col " ++ toString c ++ ")")
        | .otherError m =>
            (false, "Error reading schema file " ++ schema_file_path ++ ": " ++ m)
    | .parseError m _ _ =>
        (false, "Error reading example file " ++ example_file_path ++ ": " ++ m)
    | .notFound =>
        (false, "Error reading example file " ++ example_file_path ++ ": file not found")
    | .otherError m =>
        (false, "Error reading example file " ++ example_file_path ++ ": " ++ m)

/-! ### check_context_utilization (validator.py lines 186-336) -/

/-- The name-to-context lookup of validator.py lines 225-231: the three
    recognized example file names and their expected context file names. -/
def expected_context_name (file_name : String) : Option String :=
  if file_name = "code_classification_example.json" then
    some "code_classification_context.jsonld"
  else if file_name = "repo_profile_example.json" then
    some "repo_profile_context.jsonld"
  else if file_name = "skill_profile_example.json" then
    some "skill_profile_context.jsonld"
  else none

/-- The expected local context path of validator.py line 266:
    normpath(join(PROJECT_ROOT_FOR_CONTEXTS, "contexts", name)). -/
def expected_local_context_path (env : Env) (name : String) : String :=
  os_path_normpath (os_path_join (os_path_join env.projectRoot "contexts") name)

/-- Embeds the normalization of the declared @context value (validator.py
    lines 270-287): a non-string value yields no path; a string is tried as
    an absolute path, then (requiring existence) relative to the directory of the
    example, then relative to projectRoot/contexts, then via the legacy
    URL rewrite. -/
def normalize_actual_context_path (env : Env) (example_file_path : String)
    (actual_context : Json) : Option String :=
  match actual_context with
  | .str s =>
      if os_path_isabs s then some (os_path_normpath s)
      else
        let path_relative_to_example :=
          os_path_normpath (os_path_join (os_path_dirname example_file_path) s)
        if env.pathExists path_relative_to_example then some path_relative_to_example
        else
          let path_relative_to_project_contexts :=
            os_path_normpath (os_path_join (os_path_join env.projectRoot "contexts") s)
          if env.pathExists path_relative_to_project_contexts then
            some path_relative_to_project_contexts
          else if strStartsWith s legacyUrlStart then
            some (os_path_normpath
              (os_path_join (os_path_join env.projectRoot "contexts") (lastComponent s)))
          else none
  | _ => none

/-- Result of one check function call as main observes it: the (True, msg)
    or (False, msg) pair, or an uncaught exception (crash) that would
    propagate out of the check and abort the run. -/
inductive CheckResult where
  | ok (message : String)
  | fail (message : String)
  | crash (message : String)
deriving DecidableEq

/-- True exactly for the (False, msg) outcome. -/
def isFail : CheckResult → Bool
  | .fail _ => true
  | _ => false

/-- True exactly for the (True, msg) outcome. -/
def isOk : CheckResult → Bool
  | .ok _ => true
  | _ => false

/-- The message carried by a check outcome. -/
def resultMessage : CheckResult → String
  | .ok m => m
  | .fail m => m
  | .crash m => m

mutual

/-- CPython repr() of a parsed JSON value (used for the values inside
    containers that the f-strings of check_context_utilization print):
    strings are quoted, containers render their elements recursively. -/
def pyRepr : Json → String
  | .null => "None"
  | .bool true => "True"
  | .bool false => "False"
  | .num n => toString n
  | .str s => "\x27" ++ s ++ "\x27"
  | .arr elts => "[" ++ pyReprElts elts ++ "]"
  | .obj fields => "\x7b" ++ pyReprFields fields ++ "\x7d"

/-- Helper of pyRepr: comma-separated reprs of the elements of a list. -/
def pyReprElts : List Json → String
  | [] => ""
  | [j] => pyRepr j
  | j :: rest => pyRepr j ++ ", " ++ pyReprElts rest

/-- Helper of pyRepr: comma-separated key-value reprs of a dict. -/
def pyReprFields : List (String × Json) → String
  | [] => ""
  | [(k, v)] => "\x27" ++ k ++ "\x27: " ++ pyRepr v
  | (k, v) :: rest => "\x27" ++ k ++ "\x27: " ++ pyRepr v ++ ", " ++ pyReprFields rest

end

/-- Python str() of a value: a string renders as itself, everything else
    as its repr. -/
def pyStr : Json → String
  | .str s => s
  | j => pyRepr j

/-- Rendering of the resolved path inside the mismatch message: the path
    itself, or the Python literal None when normalization produced none. -/
def optResolvedStr : Option String → String
  | some s => s
  | none => "None"

/-- Embeds check_context_utilization (validator.py lines 186-336):
    syntax-check, require a truthy @context, look the base name up in the
    name-to-context map; with no mapping, expand and report a warning
    (success or failure according to the expansion outcome); with a
    mapping, compare the normalized declared context against the expected
    local path, reporting a mismatch failure (with the expansion outcome
    appended) on difference, and otherwise expanding with the expected
    context. A non-dict document crashes (CPython raises AttributeError at
    line 218, outside every try block). -/
def check_context_utilization (env : Env) (example_file_path : String) : CheckResult :=
  let synCheck := validate_json_syntax env example_file_path
  if !synCheck.1 then .fail synCheck.2
  else
    match env.readFile example_file_path with
    | .ok data =>
        match data with
        | .obj fields =>
            match jsonGet (.obj fields) "@context" with
            | none => .fail "Missing \x27@context\x27 key in the example file."
            | some actual_context =>
                if !jsonTruthy actual_context then
                  .fail "Missing \x27@context\x27 key in the example file."
                else
                  let file_name := os_path_basename example_file_path
                  match expected_context_name file_name with
                  | none =>
                      match env.expandUnmapped example_file_path with
                      | none =>
                          .ok ("WARNING: No specific expected context mapping for " ++
                            file_name ++ ". Document expanded successfully with provided context \x27" ++
                            pyStr actual_context ++ "\x27.")
                      | some e =>
                          .fail ("WARNING: No specific expected context mapping for " ++
                            file_name ++ ". Expansion with provided context \x27" ++
                            pyStr actual_context ++ "\x27 failed: " ++ e)
                  | some ecn =>
                      let expectedPath := expected_local_context_path env ecn
                      let norm := normalize_actual_context_path env example_file_path actual_context
                      if norm ≠ some expectedPath then
                        let message := "Context path mismatch: Expected \x27" ++ expectedPath ++
                          "\x27, but found \x27" ++ pyStr actual_context ++
                          "\x27 (resolved to \x27" ++ optResolvedStr norm ++ "\x27)."
                        match env.expandMismatch example_file_path with
                        | none =>
                            .fail (message ++
                              " However, the document expanded successfully with the provided (mismatched) context.")
                        | some e =>
                            .fail (message ++
                              " Additionally, JSON-LD expansion with the provided (mismatched) context failed: " ++ e)
                      else
                        match env.expandExpected example_file_path with
                        | none => .ok ""
                        | some (true, e) =>
                            .fail ("JSON-LD expansion error (with expected context path \x27" ++
                              expectedPath ++ "\x27): " ++ e)
                        | some (false, e) =>
                            .fail ("Unexpected error during JSON-LD expansion (with expected context path \x27" ++
                              expectedPath ++ "\x27): " ++ e)
        | _ => .crash "AttributeError: the parsed document is not a dict, data.get raises"
    | .parseError m _ _ =>
        .fail ("Error reading example file " ++ example_file_path ++ ": " ++ m)
    | .notFound =>
        .fail ("Error reading example file " ++ example_file_path ++ ": file not found")
    | .otherError m =>
        .fail ("Error reading example file " ++ example_file_path ++ ": " ++ m)

/-! ### The orchestrator (main, validator.py lines 338-526) -/

/-- Embeds the example classification of main (validator.py lines 393-396):
    a path segment literally named "examples" in the normpath of the file,
    or a substring occurrence of either example-suffix string anywhere in
    the path. -/
def is_example_file (f : String) : Bool :=
  (pathSplit (os_path_normpath f)).contains "examples"
  || strContains f "_example.json"
  || strContains f "_example.jsonld"

/-- The classification rule as the specification words it: an "examples"
    path segment, or a file name matching one of the two example-suffix
    conventions (the base name ends in the suffix). Stated for comparison
    with `is_example_file`. -/
def spec_is_example_file (f : String) : Bool :=
  (pathSplit (os_path_normpath f)).contains "examples"
  || strEndsWith (os_path_basename f) "_example.json"
  || strEndsWith (os_path_basename f) "_example.jsonld"

/-- Embeds the schema stage of main (validator.py lines 439-469): per
    example file, locate the schema (base_dir "."); with a binding, count
    an error when validate_with_schema fails; without one, skip. -/
def schema_stage_errors (env : Env) (example_files : List String) : Nat :=
  (example_files.filter (fun f =>
    match map_example_to_schema env.pathExists f "." with
    | some schema_file => !(validate_with_schema env f schema_file).1
    | none => false)).length

/-- The denominator printed by the schema summary line (validator.py line
    512): the number of classified example files. -/
def num_example_files_for_schema (example_files : List String) : Nat :=
  example_files.length

/-- The denominator the specification describes for the schema summary:
    only the example files for which a schema binding exists. Stated for
    comparison with `num_example_files_for_schema`. -/
def spec_num_examples_with_schema_binding (env : Env) (example_files : List String) : Nat :=
  (example_files.filter (fun f => (map_example_to_schema env.pathExists f ".").isSome)).length

/-- Embeds the context stage of main (validator.py lines 472-492): count
    one error per example file whose check returns (False, msg); a crash
    propagates and aborts the run (no count is produced). -/
def context_stage_errors (env : Env) (example_files : List String) : Option Nat :=
  example_files.foldl (fun acc f =>
    match acc with
    | none => none
    | some n =>
        match check_context_utilization env f with
        | .crash _ => none
        | .fail _ => some (n + 1)
        | .ok _ => some n) (some 0)

/-- The four error totals the summary of main accumulates (validator.py
    lines 386-389 and 496-518). -/
structure RunTotals where
  synErrors : Nat
  jsonldErrors : Nat
  schemaErrors : Nat
  contextErrors : Nat
deriving DecidableEq

/-- The overall pass/fail test of the summary (validator.py line 522). -/
def overall_failure (t : RunTotals) : Bool :=
  !(t.synErrors == 0 && t.jsonldErrors == 0 && t.schemaErrors == 0 && t.contextErrors == 0)

/-- The final summary statement printed for a run in which checks ran
    (validator.py lines 522-525). -/
def final_summary_line (t : RunTotals) : String :=
  if overall_failure t then "Some validations failed. Please review the errors detailed above."
  else "All selected validations passed successfully for all processed files!"

/-- Exit status of a completed run of main. main (validator.py lines
    338-526) contains no sys.exit call: after printing the summary it
    returns, and a Python process whose main returns normally exits with
    status 0, whatever error totals were accumulated. (The only exit calls
    in the script are the import guards at lines 12 and 18, which run
    before any check.) -/
def main_exit_code (_t : RunTotals) : Nat := 0

/-! ### Concrete runs used to instantiate the theorems below -/

/-- A filesystem oracle on which every path exists. -/
def allPathsExist : String → Bool := fun _ => true

/-- A filesystem oracle on which only the derived skill_profile schema
    path exists. -/
def existsOnlySkillSchema : String → Bool :=
  fun p => p == "./schemas/skill_profile.schema.json"

/-- A parsed example document declaring a relative string @context. -/
def skillDoc : Json := .obj [("@context", .str "../contexts/skill_profile_context.jsonld")]

/-- A run with one valid example file on disk and an empty schemas
    directory: no path exists, in particular no derived schema path. -/
def envEmptySchemas : Env :=
  { readFile := fun p =>
      if p = "/repo/examples/skill_profile_example.json" then .ok skillDoc else .notFound,
    pathExists := fun _ => false,
    projectRoot := "/repo",
    expandUnmapped := fun _ => none,
    expandMismatch := fun _ => none,
    expandExpected := fun _ => none,
    jsValidate := fun _ _ => .ok }

/-- A run in which every file read fails with a located JSON parse
    error. -/
def envParseErr : Env :=
  { readFile := fun _ => .parseError "Expecting value" 3 7,
    pathExists := fun _ => false,
    projectRoot := "/repo",
    expandUnmapped := fun _ => none,
    expandMismatch := fun _ => none,
    expandExpected := fun _ => none,
    jsValidate := fun _ _ => .ok }

/-- A filesystem on which the reference "ctx.jsonld" exists both as a
    literal path (rule 2) and under the contexts root (rule 4). -/
def fsRule2 : String → Bool :=
  fun p => p == "ctx.jsonld" || p == "scripts/../contexts/ctx.jsonld"

/-- A run with an example file whose base name has no entry in the
    name-to-context map and whose JSON-LD expansion raises. -/
def envUnmapped : Env :=
  { readFile := fun p =>
      if p = "x_example.json" then .ok (.obj [("@context", .str "ctx.jsonld")]) else .notFound,
    pathExists := fun _ => false,
    projectRoot := "/repo",
    expandUnmapped := fun p => if p = "x_example.json" then some "boom" else none,
    expandMismatch := fun _ => none,
    expandExpected := fun _ => none,
    jsValidate := fun _ _ => .ok }

/-- A run with a mapped example file whose declared @context is an
    absolute path to a different existing-format context; expansion with
    the mismatched context succeeds. -/
def envMismatch : Env :=
  { readFile := fun p =>
      if p = "/repo/examples/skill_profile_example.json" then
        .ok (.obj [("@context", .str "/repo/contexts/other_context.jsonld")])
      else .notFound,
    pathExists := fun _ => false,
    projectRoot := "/repo",
    expandUnmapped := fun _ => none,
    expandMismatch := fun _ => none,
    expandExpected := fun _ => none,
    jsValidate := fun _ _ => .ok }

/-- A run with a mapped example file whose @context is a (truthy)
    JSON object rather than a string. -/
def envNonStringCtx : Env :=
  { readFile := fun p =>
      if p = "repo_profile_example.json" then
        .ok (.obj [("@context", .obj [("@vocab", .str "https://example.org/")])])
      else .notFound,
    pathExists := fun _ => false,
    projectRoot := "/repo",
    expandUnmapped := fun _ => none,
    expandMismatch := fun _ => some "no remote loading",
    expandExpected := fun _ => none,
    jsValidate := fun _ _ => .ok }

/-! ### Helper lemmas about the string primitives -/

lemma isPrefixOfIff {a b : List Char} : a.isPrefixOf b = true ↔ a <+: b :=
  List.isPrefixOf_iff_prefix

lemma infixRfl {l : List Char} : l <:+: l :=
  List.infix_rfl

lemma infixConsSelf {a : Char} {l : List Char} : l <:+: a :: l :=
  List.infix_cons List.infix_rfl

lemma infixConsIff {l m : List Char} {a : Char} : l <:+: a :: m ↔ l <+: a :: m ∨ l <:+: m :=
  List.infix_cons_iff

lemma charsContain_of_infix (pat s : List Char) (h : pat <:+: s) : charsContain s pat = true := by
  induction s with
  | nil =>
      have : pat = [] := List.eq_nil_of_infix_nil h
      subst this
      rfl
  | cons c t ih =>
      rcases infixConsIff.mp h with hpre | hinf
      · show (pat.isPrefixOf (c :: t) || charsContain t pat) = true
        rw [isPrefixOfIff.mpr hpre]
        rfl
      · show (pat.isPrefixOf (c :: t) || charsContain t pat) = true
        rw [ih hinf, Bool.or_true]

lemma infix_of_charsContain (pat s : List Char) (h : charsContain s pat = true) : pat <:+: s := by
  induction s with
  | nil =>
      have : pat = [] := by
        cases pat with
        | nil => rfl
        | cons a l => simp [charsContain, List.isEmpty] at h
      subst this
      exact infixRfl
  | cons c t ih =>
      have h' : (pat.isPrefixOf (c :: t) || charsContain t pat) = true := h
      rcases Bool.or_eq_true_iff.mp h' with hp | hc
      · exact (isPrefixOfIff.mp hp).isInfix
      · exact (ih hc).trans infixConsSelf

lemma strContains_infix_iff (s pat : String) : strContains s pat = true ↔ pat.data <:+: s.data :=
  ⟨infix_of_charsContain pat.data s.data, charsContain_of_infix pat.data s.data⟩

lemma strContains_self (x : String) : strContains x x = true :=
  (strContains_infix_iff x x).mpr infixRfl

lemma strContains_left {a x : String} (b : String) (h : strContains a x = true) :
    strContains (a ++ b) x = true := by
  rw [strContains_infix_iff] at h ⊢
  rw [String.data_append]
  exact h.trans ⟨[], b.data, by simp⟩

lemma strContains_right (a : String) {b x : String} (h : strContains b x = true) :
    strContains (a ++ b) x = true := by
  rw [strContains_infix_iff] at h ⊢
  rw [String.data_append]
  exact h.trans ⟨a.data, [], by simp⟩

lemma strStartsWith_append_left {a pre : String} (b : String) (h : strStartsWith a pre = true) :
    strStartsWith (a ++ b) pre = true := by
  unfold strStartsWith at h ⊢
  rw [isPrefixOfIff] at h
  rw [String.data_append, isPrefixOfIff]
  exact h.trans ⟨b.data, rfl⟩

lemma strContains_of_startsWith {s pre : String} (h : strStartsWith s pre = true) :
    strContains s pre = true :=
  (strContains_infix_iff s pre).mpr (isPrefixOfIff.mp h).isInfix

lemma os_path_basename_data_isSuffix (p : String) : (os_path_basename p).data <:+ p.data := by
  refine ⟨(p.data.reverse.dropWhile (fun c => c != '/')).reverse, ?_⟩
  show (p.data.reverse.dropWhile (fun c => c != '/')).reverse ++
      (p.data.reverse.takeWhile (fun c => c != '/')).reverse = p.data
  rw [← List.reverse_append, List.takeWhile_append_dropWhile, List.reverse_reverse]

lemma strContains_of_basename_strEndsWith (p sfx : String)
    (h : strEndsWith (os_path_basename p) sfx = true) : strContains p sfx = true := by
  rw [strContains_infix_iff]
  have h1 : sfx.data <:+ (os_path_basename p).data := List.isSuffixOf_iff_suffix.mp h
  exact (h1.trans (os_path_basename_data_isSuffix p)).isInfix

lemma strStartsWith_rfl (x : String) : strStartsWith x x = true := by
  unfold strStartsWith
  rw [isPrefixOfIff]

/-! ### Claim C10 -/

/-- Claim C10: for a file named exactly "_example.json" or "_example.jsonld"
(so that stripping the recognized suffix leaves an empty stem), the schema
locator returns no binding rather than deriving a schema path named
".schema.json", whatever the filesystem contains and whatever the base
directory is. -/
theorem C10_empty_stem_no_binding (pathExists : String → Bool) (base_dir : String) :
    map_example_to_schema pathExists "_example.json" base_dir = none
    ∧ map_example_to_schema pathExists "_example.jsonld" base_dir = none :=
  ⟨rfl, rfl⟩

/-! ### Claim C7 -/

/-- Claim C7 counterexample: the file named "_example.json" ends in a
recognized example suffix and its derived schema path ./schemas/.schema.json
exists on this filesystem, yet the locator returns no binding — a third
None case beyond the two the claim admits. -/
theorem C7_counterexample :
    map_example_to_schema allPathsExist "_example.json" "." = none
    ∧ strEndsWith (os_path_basename "_example.json") "_example.json" = true
    ∧ allPathsExist (os_path_join (os_path_join "." "schemas")
        (strDropRight (os_path_basename "_example.json") 13 ++ ".schema.json")) = true :=
  ⟨rfl, by decide, rfl⟩

/-- Claim C7 (amended): the schema locator returns no binding in exactly
three cases — the base name ends in neither recognized example suffix, the
stem left after stripping the suffix is empty, or the derived schema path
base_dir/schemas/stem.schema.json does not exist on disk — and otherwise
it returns that derived path. -/
theorem C7_amended_schema_locator (pathExists : String → Bool) (p base_dir : String) :
    (strEndsWith (os_path_basename p) "_example.json" = false →
      strEndsWith (os_path_basename p) "_example.jsonld" = false →
      map_example_to_schema pathExists p base_dir = none)
    ∧ (strEndsWith (os_path_basename p) "_example.json" = true →
        (strDropRight (os_path_basename p) 13 = "" →
          map_example_to_schema pathExists p base_dir = none)
        ∧ (strDropRight (os_path_basename p) 13 ≠ "" →
            (pathExists (os_path_join (os_path_join base_dir "schemas")
                (strDropRight (os_path_basename p) 13 ++ ".schema.json")) = false →
              map_example_to_schema pathExists p base_dir = none)
            ∧ (pathExists (os_path_join (os_path_join base_dir "schemas")
                (strDropRight (os_path_basename p) 13 ++ ".schema.json")) = true →
              map_example_to_schema pathExists p base_dir =
                some (os_path_join (os_path_join base_dir "schemas")
                  (strDropRight (os_path_basename p) 13 ++ ".schema.json")))))
    ∧ (strEndsWith (os_path_basename p) "_example.json" = false →
        strEndsWith (os_path_basename p) "_example.jsonld" = true →
        (strDropRight (os_path_basename p) 15 = "" →
          map_example_to_schema pathExists p base_dir = none)
        ∧ (strDropRight (os_path_basename p) 15 ≠ "" →
            (pathExists (os_path_join (os_path_join base_dir "schemas")
                (strDropRight (os_path_basename p) 15 ++ ".schema.json")) = false →
              map_example_to_schema pathExists p base_dir = none)
            ∧ (pathExists (os_path_join (os_path_join base_dir "schemas")
                (strDropRight (os_path_basename p) 15 ++ ".schema.json")) = true →
              map_example_to_schema pathExists p base_dir =
                some (os_path_join (os_path_join base_dir "schemas")
                  (strDropRight (os_path_basename p) 15 ++ ".schema.json"))))) := by
  refine ⟨fun h1 h2 => ?_,
    fun h1 => ⟨fun hs => ?_, fun hs => ⟨fun hex => ?_, fun hex => ?_⟩⟩,
    fun h1 h2 => ⟨fun hs => ?_, fun hs => ⟨fun hex => ?_, fun hex => ?_⟩⟩⟩ <;>
  simp [map_example_to_schema, *]

/-- Claim C7 witness: a conventional example file with an existing derived
schema path receives exactly that binding. -/
theorem C7_witness :
    map_example_to_schema existsOnlySkillSchema "examples/skill_profile_example.json" "." =
      some "./schemas/skill_profile.schema.json" := by
  have h := (((C7_amended_schema_locator existsOnlySkillSchema
      "examples/skill_profile_example.json" ".").2.1 (by decide)).2 (by decide)).2 (by decide)
  exact h.trans (by decide)

/-! ### Claim C1 -/

/-- Claim C1 counterexample: a run whose selected checks reported one
syntax error still exits with status 0 — main contains no sys.exit call,
so the claimed non-zero exit does not happen. -/
theorem C1_counterexample :
    overall_failure ⟨1, 0, 0, 0⟩ = true ∧ main_exit_code ⟨1, 0, 0, 0⟩ = 0 :=
  ⟨rfl, rfl⟩

/-- Claim C1 (amended): every completed run exits with status 0 whether or
not any selected check reported errors; an overall failure is signalled
only through the final summary line ("Some validations failed. ..."),
while an error-free run gets the all-passed summary line. -/
theorem C1_amended_exit_behavior (t : RunTotals) :
    main_exit_code t = 0
    ∧ (overall_failure t = true →
        final_summary_line t = "Some validations failed. Please review the errors detailed above.")
    ∧ (overall_failure t = false →
        final_summary_line t =
          "All selected validations passed successfully for all processed files!") := by
  refine ⟨rfl, fun h => ?_, fun h => ?_⟩ <;> simp [final_summary_line, h]

/-- Claim C1 witness: the amended exit behaviour at the totals (1,0,0,0). -/
theorem C1_witness :
    final_summary_line ⟨1, 0, 0, 0⟩ =
      "Some validations failed. Please review the errors detailed above." :=
  (C1_amended_exit_behavior ⟨1, 0, 0, 0⟩).2.1 (by decide)

/-! ### Claim C3 -/

/-- Claim C3 counterexample: with one classified valid example file and an
empty schemas directory the schema stage reports 0 errors, but the printed
denominator is 1 — the count of all classified example files — not the 0
the claim predicts (examples with a schema binding only). -/
theorem C3_counterexample :
    schema_stage_errors envEmptySchemas ["/repo/examples/skill_profile_example.json"] = 0
    ∧ num_example_files_for_schema ["/repo/examples/skill_profile_example.json"] = 1
    ∧ spec_num_examples_with_schema_binding envEmptySchemas
        ["/repo/examples/skill_profile_example.json"] = 0
    ∧ map_example_to_schema envEmptySchemas.pathExists
        "/repo/examples/skill_profile_example.json" "." = none := by
  refine ⟨by decide, rfl, by decide, by decide⟩

/-- Claim C3 (amended): when no processed example file has a schema
binding (for instance with an empty schemas directory), the schema stage
reports 0 errors — the examples are skipped, not failed — but the summary
denominator is the number of all classified example files, not the number
of examples with a binding. -/
theorem C3_amended_schema_summary (env : Env) (example_files : List String)
    (h : ∀ f ∈ example_files, map_example_to_schema env.pathExists f "." = none) :
    schema_stage_errors env example_files = 0
    ∧ num_example_files_for_schema example_files = example_files.length := by
  refine ⟨?_, rfl⟩
  unfold schema_stage_errors
  rw [List.length_eq_zero, List.filter_eq_nil_iff]
  intro f hf
  rw [h f hf]
  simp

/-- Claim C3 witness: the amended schema summary at the concrete
empty-schemas run. -/
theorem C3_witness :
    schema_stage_errors envEmptySchemas ["/repo/examples/skill_profile_example.json"] = 0 :=
  (C3_amended_schema_summary envEmptySchemas ["/repo/examples/skill_profile_example.json"]
    (by decide)).1

/-! ### Claim C6 -/

/-- Claim C6: the syntax checker is total — every filesystem outcome,
including a missing file and an arbitrary non-parse exception raised on
malformed byte content, is converted to a (success, message) pair — and
every JSON parse failure yields the failure outcome whose message carries
the line and column of the defect. -/
theorem C6_syntax_checker_total (env : Env) (p : String) :
    (∀ d, env.readFile p = .ok d → validate_json_syntax env p = (true, ""))
    ∧ (∀ m l c, env.readFile p = .parseError m l c →
        validate_json_syntax env p =
          (false, "Syntax error: " ++ m ++ " (line " ++ toString l ++ ", column " ++
            toString c ++ ")"))
    ∧ (env.readFile p = .notFound →
        validate_json_syntax env p = (false, "Error: File not found."))
    ∧ (∀ m, env.readFile p = .otherError m →
        validate_json_syntax env p =
          (false, "An unexpected error occurred during JSON syntax validation: " ++ m)) := by
  refine ⟨fun d h => ?_, fun m l c h => ?_, fun h => ?_, fun m h => ?_⟩ <;>
  simp [ validate_json_syntax, h]

/-- Claim C6 witness: the located parse-error outcome at a concrete run. -/
theorem C6_witness :
    validate_json_syntax envParseErr "bad.json" =
      (false, "Syntax error: Expecting value (line 3, column 7)") := by
  have h := (C6_syntax_checker_total envParseErr "bad.json").2.1 "Expecting value" 3 7 rfl
  exact h.trans (by decide)

/-! ### Claim C5 -/

/-- Claim C5: both context document loaders try their resolution rules in
the fixed order — (1) legacy remote-URL prefix stripped and looked up
under the contexts root, (2) existing literal filesystem path, (3) the
reference relative to the directory of the referencing document, (4) bare name
under the contexts root, (5) an unresolvable-reference error naming the
original reference — and the first matching rule wins; in particular a
reference resolvable by both rule 2 and rule 4 resolves via rule 2. -/
theorem C5_resolution_order (pathExists : String → Bool)
    (scriptDir projectRoot file_path url : String) :
    (strStartsWith url legacyUrlStart = true →
      local_document_loader pathExists scriptDir file_path url =
        (if pathExists (os_path_join (os_path_join (os_path_join scriptDir "..") "contexts")
            (lastComponent url)) = true then
          .loaded (os_path_join (os_path_join (os_path_join scriptDir "..") "contexts")
            (lastComponent url))
        else .loadError ("Context URL " ++ url ++ " could not be resolved to a local file.")))
    ∧ (strStartsWith url legacyUrlStart = false → pathExists url = true →
        local_document_loader pathExists scriptDir file_path url = .loaded url)
    ∧ (strStartsWith url legacyUrlStart = false → pathExists url = false →
        pathExists (os_path_join (os_path_dirname file_path) url) = true →
        local_document_loader pathExists scriptDir file_path url =
          .loaded (os_path_join (os_path_dirname file_path) url))
    ∧ (strStartsWith url legacyUrlStart = false → pathExists url = false →
        pathExists (os_path_join (os_path_dirname file_path) url) = false →
        pathExists (os_path_join (os_path_join (os_path_join scriptDir "..") "contexts")
          url) = true →
        local_document_loader pathExists scriptDir file_path url =
          .loaded (os_path_join (os_path_join (os_path_join scriptDir "..") "contexts") url))
    ∧ (strStartsWith url legacyUrlStart = false → pathExists url = false →
        pathExists (os_path_join (os_path_dirname file_path) url) = false →
        pathExists (os_path_join (os_path_join (os_path_join scriptDir "..") "contexts")
          url) = false →
        local_document_loader pathExists scriptDir file_path url =
          .loadError ("Context URL " ++ url ++ " could not be resolved to a local file."))
    ∧ (strStartsWith url legacyUrlStart = true →
        local_document_loader_for_check pathExists projectRoot file_path url =
          (if pathExists (os_path_join (os_path_join projectRoot "contexts")
              (lastComponent url)) = true then
            .loaded (os_path_join (os_path_join projectRoot "contexts") (lastComponent url))
          else .loadError ("Context URL " ++ url ++ " could not be resolved to a local file.")))
    ∧ (strStartsWith url legacyUrlStart = false → pathExists url = true →
        local_document_loader_for_check pathExists projectRoot file_path url = .loaded url)
    ∧ (strStartsWith url legacyUrlStart = false → pathExists url = false →
        pathExists (os_path_join (os_path_dirname file_path) url) = true →
        local_document_loader_for_check pathExists projectRoot file_path url =
          .loaded (os_path_join (os_path_dirname file_path) url))
    ∧ (strStartsWith url legacyUrlStart = false → pathExists url = false →
        pathExists (os_path_join (os_path_dirname file_path) url) = false →
        pathExists (os_path_join (os_path_join projectRoot "contexts") url) = true →
        local_document_loader_for_check pathExists projectRoot file_path url =
          .loaded (os_path_join (os_path_join projectRoot "contexts") url))
    ∧ (strStartsWith url legacyUrlStart = false → pathExists url = false →
        pathExists (os_path_join (os_path_dirname file_path) url) = false →
        pathExists (os_path_join (os_path_join projectRoot "contexts") url) = false →
        local_document_loader_for_check pathExists projectRoot file_path url =
          .loadError ("Context URL " ++ url ++ " could not be resolved to a local file.")) := by
  refine ⟨fun h1 => ?_, fun h1 h2 => ?_, fun h1 h2 h3 => ?_, fun h1 h2 h3 h4 => ?_,
    fun h1 h2 h3 h4 => ?_, fun h1 => ?_, fun h1 h2 => ?_, fun h1 h2 h3 => ?_,
    fun h1 h2 h3 h4 => ?_, fun h1 h2 h3 h4 => ?_⟩ <;>
  simp [local_document_loader, local_document_loader_for_check, *]

/-- Claim C5 witness: a reference resolvable both as an existing literal
path (rule 2) and as a bare name under the contexts root (rule 4) resolves
via rule 2. -/
theorem C5_witness :
    local_document_loader fsRule2 "scripts" "examples/a.json" "ctx.jsonld" =
      .loaded "ctx.jsonld"
    ∧ fsRule2 (os_path_join (os_path_join (os_path_join "scripts" "..") "contexts")
        "ctx.jsonld") = true :=
  ⟨(C5_resolution_order fsRule2 "scripts" "/repo" "examples/a.json" "ctx.jsonld").2.1
      (by decide) (by decide),
    by decide⟩

/-! ### Claim C8 -/

/-- Claim C8 counterexample: the path "x_example.json.bak.json" is
classified as an example by the orchestrator (the string "_example.json"
occurs inside the path), yet its normalized path has no "examples" segment
and its name ends in neither recognized example suffix — so the claimed
classification rule disagrees with the code on it. -/
theorem C8_counterexample :
    is_example_file "x_example.json.bak.json" = true
    ∧ spec_is_example_file "x_example.json.bak.json" = false := by
  refine ⟨by decide, by decide⟩

/-- Claim C8 (amended): a discovered file is classified as an example iff
its normalized path contains a path segment literally named "examples", or
the string "_example.json" or "_example.jsonld" occurs anywhere in the
path — a substring test, not a name-suffix test. Every file whose base
name ends in a recognized example suffix is therefore classified as an
example, but not conversely. -/
theorem C8_amended_classification (f : String) :
    (is_example_file f = true ↔
      ((pathSplit (os_path_normpath f)).contains "examples" = true
        ∨ strContains f "_example.json" = true
        ∨ strContains f "_example.jsonld" = true))
    ∧ (spec_is_example_file f = true → is_example_file f = true) := by
  constructor
  · simp [is_example_file, Bool.or_eq_true, or_assoc]
  · intro h
    rcases Bool.or_eq_true_iff.mp h with hab | hc
    · rcases Bool.or_eq_true_iff.mp hab with ha | hb
      · unfold is_example_file
        rw [ha]
        rfl
      · unfold is_example_file
        rw [strContains_of_basename_strEndsWith f "_example.json" hb]
        simp
    · unfold is_example_file
      rw [strContains_of_basename_strEndsWith f "_example.jsonld" hc]
      simp

/-- Claim C8 witness: a conventional example path is classified as an
example both by the specification rule and by the orchestrator rule. -/
theorem C8_witness :
    is_example_file "examples/skill_profile_example.json" = true :=
  (C8_amended_classification "examples/skill_profile_example.json").2 (by decide)

/-! ### Claim C2 -/

/-- Claim C2 counterexample: an example file whose base name has no entry
in the name-to-context map and whose JSON-LD expansion fails produces a
(False, msg) outcome, and the orchestrator counts it as a context error —
the hard failure the claim says this branch can never produce. -/
theorem C2_counterexample :
    expected_context_name (os_path_basename "x_example.json") = none
    ∧ isFail (check_context_utilization envUnmapped "x_example.json") = true
    ∧ context_stage_errors envUnmapped ["x_example.json"] = some 1 := by
  refine ⟨by decide, by decide, by decide⟩

/-- Claim C2 (amended): for an example file whose base name has no entry
in the name-to-context map, expansion success yields a success-with-warning
outcome that the orchestrator does not count as a context error; expansion
failure, however, yields a failure outcome — warning-framed in its message
but (False, msg) all the same — which the orchestrator does count as a
context error. -/
theorem C2_amended_unmapped_branch (env : Env) (p : String) (fields : List (String × Json))
    (j : Json)
    (hread : env.readFile p = .ok (.obj fields))
    (hget : jsonGet (.obj fields) "@context" = some j)
    (htr : jsonTruthy j = true)
    (hmap : expected_context_name (os_path_basename p) = none) :
    (env.expandUnmapped p = none →
      isOk (check_context_utilization env p) = true
      ∧ strContains (resultMessage (check_context_utilization env p))
          "WARNING: No specific expected context mapping" = true
      ∧ context_stage_errors env [p] = some 0)
    ∧ (∀ e, env.expandUnmapped p = some e →
        isFail (check_context_utilization env p) = true
        ∧ strContains (resultMessage (check_context_utilization env p))
            "WARNING: No specific expected context mapping" = true
        ∧ context_stage_errors env [p] = some 1) := by
  constructor
  · intro hexp
    have hres : check_context_utilization env p =
        .ok ("WARNING: No specific expected context mapping for " ++ os_path_basename p ++
          ". Document expanded successfully with provided context \x27" ++ pyStr j ++
          "\x27.") := by
      simp [check_context_utilization, validate_json_syntax, hread, hget, htr, hmap, hexp]
    refine ⟨by rw [hres]; rfl, ?_, ?_⟩
    · rw [hres]
      simp only [resultMessage]
      exact strContains_of_startsWith (strStartsWith_append_left _
        (strStartsWith_append_left _ (strStartsWith_append_left _
          (strStartsWith_append_left _ (by decide)))))
    · simp [context_stage_errors, hres]
  · intro e hexp
    have hres : check_context_utilization env p =
        .fail ("WARNING: No specific expected context mapping for " ++ os_path_basename p ++
          ". Expansion with provided context \x27" ++ pyStr j ++ "\x27 failed: " ++ e) := by
      simp [check_context_utilization, validate_json_syntax, hread, hget, htr, hmap, hexp]
    refine ⟨by rw [hres]; rfl, ?_, ?_⟩
    · rw [hres]
      simp only [resultMessage]
      exact strContains_of_startsWith (strStartsWith_append_left _
        (strStartsWith_append_left _ (strStartsWith_append_left _
          (strStartsWith_append_left _ (strStartsWith_append_left _ (by decide))))))
    · simp [context_stage_errors, hres]

/-- Claim C2 witness: the amended unmapped-branch behaviour at the
concrete failing-expansion run. -/
theorem C2_witness :
    context_stage_errors envUnmapped ["x_example.json"] = some 1 :=
  ((C2_amended_unmapped_branch envUnmapped "x_example.json"
      [("@context", Json.str "ctx.jsonld")] (Json.str "ctx.jsonld")
      rfl rfl (by decide) (by decide)).2 "boom" rfl).2.2

/-! ### Claim C9 -/

/-- Claim C9: a mapped example file whose @context value is present and
truthy but not a string always takes the mismatch branch — normalization
of the actual context yields no path, which is treated the same as a path
that differs from the expected one — producing a mismatch failure. -/
theorem C9_non_string_context (env : Env) (p : String) (fields : List (String × Json))
    (j : Json) (ecn : String)
    (hread : env.readFile p = .ok (.obj fields))
    (hget : jsonGet (.obj fields) "@context" = some j)
    (htr : jsonTruthy j = true)
    (hnstr : ∀ s, j ≠ Json.str s)
    (hmap : expected_context_name (os_path_basename p) = some ecn) :
    normalize_actual_context_path env p j = none
    ∧ isFail (check_context_utilization env p) = true
    ∧ strContains (resultMessage (check_context_utilization env p))
        "Context path mismatch: Expected" = true := by
  have hnorm : normalize_actual_context_path env p j = none := by
    cases j with
    | str s => exact absurd rfl (hnstr s)
    | null => rfl
    | bool b => rfl
    | num n => rfl
    | arr elts => rfl
    | obj fs => rfl
  refine ⟨hnorm, ?_⟩
  cases hE : env.expandMismatch p with
  | none =>
      have hres : check_context_utilization env p =
          .fail ("Context path mismatch: Expected \x27" ++ expected_local_context_path env ecn ++
            "\x27, but found \x27" ++ pyStr j ++ "\x27 (resolved to \x27" ++
            optResolvedStr none ++ "\x27)." ++
            " However, the document expanded successfully with the provided (mismatched) context.") := by
        simp [check_context_utilization, validate_json_syntax, hread, hget, htr, hmap, hnorm, hE]
      refine ⟨by rw [hres]; rfl, ?_⟩
      rw [hres]
      simp only [resultMessage]
      exact strContains_of_startsWith (strStartsWith_append_left _
        (strStartsWith_append_left _ (strStartsWith_append_left _
          (strStartsWith_append_left _ (strStartsWith_append_left _
            (strStartsWith_append_left _ (strStartsWith_append_left _ (by decide))))))))
  | some e =>
      have hres : check_context_utilization env p =
          .fail ("Context path mismatch: Expected \x27" ++ expected_local_context_path env ecn ++
            "\x27, but found \x27" ++ pyStr j ++ "\x27 (resolved to \x27" ++
            optResolvedStr none ++ "\x27)." ++
            " Additionally, JSON-LD expansion with the provided (mismatched) context failed: " ++
            e) := by
        simp [check_context_utilization, validate_json_syntax, hread, hget, htr, hmap, hnorm, hE]
      refine ⟨by rw [hres]; rfl, ?_⟩
      rw [hres]
      simp only [resultMessage]
      exact strContains_of_startsWith (strStartsWith_append_left _
        (strStartsWith_append_left _ (strStartsWith_append_left _
          (strStartsWith_append_left _ (strStartsWith_append_left _
            (strStartsWith_append_left _ (strStartsWith_append_left _
              (strStartsWith_append_left _ (by decide)))))))))

/-- Claim C9 witness: the mismatch failure at a concrete run whose mapped
example declares a JSON object as its @context. -/
theorem C9_witness :
    isFail (check_context_utilization envNonStringCtx "repo_profile_example.json") = true :=
  (C9_non_string_context envNonStringCtx "repo_profile_example.json"
      [("@context", Json.obj [("@vocab", Json.str "https://example.org/")])]
      (Json.obj [("@vocab", Json.str "https://example.org/")]) "repo_profile_context.jsonld"
      rfl rfl (by decide) (fun s h => Json.noConfusion h) (by decide)).2.1

/-! ### Claim C4 -/

/-- Claim C4: for a mapped example file whose declared @context is a
string that does not normalize to the expected context path (or fails to
normalize), the check returns a mismatch failure whose message names the
expected path, the declared context value and the resolved path — and it
is a failure even when JSON-LD expansion with the declared context
succeeds, the two expansion outcomes yielding differentiated messages. -/
theorem C4_mismatch_failure (env : Env) (p : String) (fields : List (String × Json))
    (s ecn : String)
    (hread : env.readFile p = .ok (.obj fields))
    (hget : jsonGet (.obj fields) "@context" = some (.str s))
    (hs : s ≠ "")
    (hmap : expected_context_name (os_path_basename p) = some ecn)
    (hmis : normalize_actual_context_path env p (.str s) ≠
        some (expected_local_context_path env ecn)) :
    isFail (check_context_utilization env p) = true
    ∧ strContains (resultMessage (check_context_utilization env p))
        (expected_local_context_path env ecn) = true
    ∧ strContains (resultMessage (check_context_utilization env p)) s = true
    ∧ strContains (resultMessage (check_context_utilization env p))
        (optResolvedStr (normalize_actual_context_path env p (.str s))) = true
    ∧ (env.expandMismatch p = none →
        strContains (resultMessage (check_context_utilization env p))
          " However, the document expanded successfully with the provided (mismatched) context." =
          true)
    ∧ (∀ e, env.expandMismatch p = some e →
        strContains (resultMessage (check_context_utilization env p))
          " Additionally, JSON-LD expansion with the provided (mismatched) context failed: " =
          true) := by
  have htr : jsonTruthy (Json.str s) = true := by simp [jsonTruthy, hs]
  cases hE : env.expandMismatch p with
  | none =>
      have hres : check_context_utilization env p =
          .fail ("Context path mismatch: Expected \x27" ++ expected_local_context_path env ecn ++
            "\x27, but found \x27" ++ s ++ "\x27 (resolved to \x27" ++
            optResolvedStr (normalize_actual_context_path env p (.str s)) ++ "\x27)." ++
            " However, the document expanded successfully with the provided (mismatched) context.") := by
        simp [check_context_utilization, validate_json_syntax, hread, hget, htr, hmap, hmis, hE,
          pyStr]
      rw [hres]
      simp only [resultMessage, isFail]
      refine ⟨trivial, ?_, ?_, ?_, fun _ => ?_, fun e he => ?_⟩
      · exact strContains_left _ (strContains_left _ (strContains_left _ (strContains_left _
          (strContains_left _ (strContains_left _
            (strContains_right _ (strContains_self _)))))))
      · exact strContains_left _ (strContains_left _ (strContains_left _ (strContains_left _
          (strContains_right _ (strContains_self _)))))
      · exact strContains_left _ (strContains_left _
          (strContains_right _ (strContains_self _)))
      · exact strContains_right _ (strContains_self _)
      · exact Option.noConfusion he
  | some e0 =>
      have hres : check_context_utilization env p =
          .fail ("Context path mismatch: Expected \x27" ++ expected_local_context_path env ecn ++
            "\x27, but found \x27" ++ s ++ "\x27 (resolved to \x27" ++
            optResolvedStr (normalize_actual_context_path env p (.str s)) ++ "\x27)." ++
            " Additionally, JSON-LD expansion with the provided (mismatched) context failed: " ++
            e0) := by
        simp [check_context_utilization, validate_json_syntax, hread, hget, htr, hmap, hmis, hE,
          pyStr]
      rw [hres]
      simp only [resultMessage, isFail]
      refine ⟨trivial, ?_, ?_, ?_, fun hnone => ?_, fun e he => ?_⟩
      · exact strContains_left _ (strContains_left _ (strContains_left _ (strContains_left _
          (strContains_left _ (strContains_left _ (strContains_left _
            (strContains_right _ (strContains_self _))))))))
      · exact strContains_left _ (strContains_left _ (strContains_left _ (strContains_left _
          (strContains_left _ (strContains_right _ (strContains_self _))))))
      · exact strContains_left _ (strContains_left _ (strContains_left _
          (strContains_right _ (strContains_self _))))
      · exact Option.noConfusion hnone
      · exact strContains_left _ (strContains_right _ (strContains_self _))

/-- Claim C4 witness: the mismatch failure at a concrete run whose mapped
example declares an absolute path to a different context file and whose
expansion with that mismatched context succeeds. -/
theorem C4_witness :
    isFail (check_context_utilization envMismatch
      "/repo/examples/skill_profile_example.json") = true :=
  (C4_mismatch_failure envMismatch "/repo/examples/skill_profile_example.json"
      [("@context", Json.str "/repo/contexts/other_context.jsonld")]
      "/repo/contexts/other_context.jsonld" "skill_profile_context.jsonld"
      rfl rfl (by decide) (by decide) (by decide)).1

end Validator
